import Mathlib

/-!
Verification of the type-descriptor core of pymvc (`pymvc/model/datatypes.py`).

The file is a shallow embedding of that module: Python values become an
inductive `PyVal`, Python `isinstance` becomes `isinst`, each descriptor
class becomes a constructor function returning `Except PyError BuiltDesc`,
and the `create_instance` / `to_model_data` methods become functions on the
embedded descriptor instances. Collaborators of the module that are not part
of the embedded file (the model base class and registry, the standard
library UUID type, the hashing module) are modelled from the specification;
each such definition carries a doc comment saying so.
-/

namespace Pymvc

/-- Python runtime values that flow through the datatypes module: the scalar
types named by the descriptors, `None`, UUID values (carried as their
canonical lowercase text), enum members (enumeration name, member name and
underlying value), lists, model instances (model name plus attribute
dictionary) and hashed-value wrappers. Floats and datetimes are opaque tags:
the module never computes with them, it only stores and type-checks them. -/
inductive PyVal where
  | vNone : PyVal
  | vBool (b : Bool) : PyVal
  | vInt (n : Int) : PyVal
  | vFloat (tag : Nat) : PyVal
  | vStr (s : String) : PyVal
  | vDatetime (tag : Nat) : PyVal
  | vUUID (text : String) : PyVal
  | vEnumMember (enumName memberName : String) (value : PyVal) : PyVal
  | vList (items : List PyVal) : PyVal
  | vModelInst (modelName : String) (attrs : List (String × PyVal)) : PyVal
  | vHashed (raw : PyVal) : PyVal

/-- Test for the Python `is None` check used by the base initializer. -/
def PyVal.isNone : PyVal → Bool
  | .vNone => true
  | _ => false

/-- Python `bool` is a subclass of `int`: `True` behaves as `1` and `False`
as `0` under `==`. -/
def boolToInt (b : Bool) : Int := if b then 1 else 0

mutual

/-- Python `==` on the embedded values. Scalars compare by content, with the
numeric identification of `bool` and `int` (`True == 1`); enum members
compare by enumeration, name and value; lists compare element-wise; model
instances compare by model and attributes. Only the enum-member lookup of
`EnumType.create_instance` consults this relation. -/
def pyEq : PyVal → PyVal → Bool
  | .vNone, .vNone => true
  | .vBool a, .vBool b => a == b
  | .vBool a, .vInt n => boolToInt a == n
  | .vInt n, .vBool b => n == boolToInt b
  | .vInt a, .vInt b => a == b
  | .vFloat a, .vFloat b => a == b
  | .vStr a, .vStr b => a == b
  | .vDatetime a, .vDatetime b => a == b
  | .vUUID a, .vUUID b => a == b
  | .vEnumMember e1 n1 v1, .vEnumMember e2 n2 v2 => e1 == e2 && (n1 == n2 && pyEq v1 v2)
  | .vList a, .vList b => pyEqList a b
  | .vModelInst n1 a1, .vModelInst n2 a2 => n1 == n2 && pyEqAttrs a1 a2
  | .vHashed a, .vHashed b => pyEq a b
  | _, _ => false

/-- Element-wise `pyEq` on lists. -/
def pyEqList : List PyVal → List PyVal → Bool
  | [], [] => true
  | x :: xs, y :: ys => pyEq x y && pyEqList xs ys
  | _, _ => false

/-- Entry-wise `pyEq` on attribute dictionaries. -/
def pyEqAttrs : List (String × PyVal) → List (String × PyVal) → Bool
  | [], [] => true
  | (k1, v1) :: t1, (k2, v2) :: t2 => k1 == k2 && (pyEq v1 v2 && pyEqAttrs t1 t2)
  | _, _ => false

end

/-- Python classes that occur as a descriptor `type` property: the fixed
scalar classes, `uuid.UUID`, `list`, enumeration classes and model classes
(identified by name), and the hashing module wrapper class. -/
inductive PyType where
  | tStr : PyType
  | tInt : PyType
  | tFloat : PyType
  | tBool : PyType
  | tDatetime : PyType
  | tUUID : PyType
  | tList : PyType
  | tEnum (enumName : String) : PyType
  | tModel (modelName : String) : PyType
  | tHashed : PyType

/-- Python `isinstance` restricted to the embedded values and classes. The
one subtyping fact the module can observe is that `bool` is a subclass of
`int`, so a `bool` value is an instance of `int`. -/
def isinst : PyVal → PyType → Bool
  | .vStr _, .tStr => true
  | .vBool _, .tBool => true
  | .vBool _, .tInt => true
  | .vInt _, .tInt => true
  | .vFloat _, .tFloat => true
  | .vDatetime _, .tDatetime => true
  | .vUUID _, .tUUID => true
  | .vList _, .tList => true
  | .vEnumMember en _ _, .tEnum n => en == n
  | .vModelInst mn _, .tModel n => mn == n
  | .vHashed _, .tHashed => true
  | _, _ => false

/-- Errors of the module, named after the taxonomy of the specification.
`configurationError` stands for the `TypeError` the base initializer raises
at construction time; `conversionError` for the `ValueError` a failed value
conversion raises; `lookupError` for a failed registry or loader lookup;
`attributeError` for a missing attribute; `typeError` for the remaining
misuse errors of the Python runtime. -/
inductive PyError where
  | configurationError (msg : String) : PyError
  | conversionError (msg : String) : PyError
  | lookupError (msg : String) : PyError
  | attributeError (msg : String) : PyError
  | typeError (msg : String) : PyError

/-- Classifier for successful construction. -/
def isOkE {α : Type} : Except PyError α → Bool
  | .ok _ => true
  | .error _ => false

/-- Classifier for the construction-time configuration error. -/
def isConfigurationError {α : Type} : Except PyError α → Bool
  | .error (.configurationError _) => true
  | _ => false

/-- Classifier for the conversion error. -/
def isConversionError {α : Type} : Except PyError α → Bool
  | .error (.conversionError _) => true
  | _ => false

/-- Constraint state a finished `ModelTypeBase.__init__` leaves behind: the
four private fields read back by the `primary`, `non_null`, `unique` and
`default` properties. An absent default is the stored `None`. -/
structure Descriptor where
  primary : Bool
  non_null : Bool
  unique : Bool
  default : PyVal

/-- Embedding of `ModelTypeBase.__init__`. `tyAccess` is the read of the
`self.type` property: for descriptor classes whose `type` reads instance
state assigned only after the base initializer returns (EnumType,
ForeignType) it is the `AttributeError` that read raises, otherwise the
class it returns. The order of the checks follows the source: the non-null
check reads the passed `non_null` argument and fires before `primary`
forces the stored flags; the default type check reads `self.type` only when
a default other than `None` was supplied. `primary || x` is the source
`if primary: self.__x = True` collapsed over the earlier assignment. -/
def modelTypeBaseInit (tyAccess : Except PyError PyType)
    (primary non_null unique : Bool) (dflt : PyVal) : Except PyError Descriptor :=
  if non_null && dflt.isNone then
    .error (.configurationError
      "type specified non null but default value is None or not specified")
  else if dflt.isNone then
    .ok ⟨primary, primary || non_null, primary || unique, dflt⟩
  else
    match tyAccess with
    | .error e => .error e
    | .ok ty =>
      if isinst dflt ty then
        .ok ⟨primary, primary || non_null, primary || unique, dflt⟩
      else
        .error (.configurationError
          "default value type is not compatible with specified type")

/-- An enumeration class: its name and its canonical members, each a member
name with its underlying value. Python removes duplicate-valued members as
aliases, so value-distinctness of this list is stated as a hypothesis where
a theorem needs it. -/
structure PyEnum where
  name : String
  members : List (String × PyVal)

/-- Modelled from the spec: the model collaborator (`model_base.Model` from
`pymvc.model.model_base`, not under src/). Per the external-interface table
it exposes its primary-key field name (`get_primary_key_name`, field
`primaryKeyName`) and a loader `load(**{primary_key_field: value})` (field
`load`, taking the keyword-argument name and the value) that returns a model
instance or fails however the loader fails. -/
structure PyModel where
  name : String
  primaryKeyName : String
  load : String → PyVal → Except PyError PyVal

/-- Modelled from the spec: the process-wide model registry
(`get_loaded_model` in `model_base`, not under src/): resolves a model name
to the registered model and fails with a lookup error for an unknown name. -/
def get_loaded_model (registry : List (String × PyModel)) (name : String) :
    Except PyError PyModel :=
  match registry.find? (fun r => r.1 == name) with
  | some r => .ok r.2
  | none => .error (.lookupError "model name is not registered")

/-- The `model` argument of `ForeignType.__init__`: a model name or a model
class. -/
inductive ModelArg where
  | byName (name : String) : ModelArg
  | byClass (m : PyModel) : ModelArg

/-- Reads a key out of an attribute dictionary (first binding wins). -/
def lookupAttr (attrs : List (String × PyVal)) (k : String) : Option PyVal :=
  match attrs.find? (fun a => a.1 == k) with
  | some a => some a.2
  | none => none

/-- Python `getattr` restricted to the embedded values: model instances
carry an attribute dictionary; every other value lacks the model attributes
the module reads, so the access raises `AttributeError`. -/
def getattrPy : PyVal → String → Except PyError PyVal
  | .vModelInst _ attrs, k =>
    match lookupAttr attrs k with
    | some v => .ok v
    | none => .error (.attributeError k)
  | _, k => .error (.attributeError k)

/-- The `value` attribute read by `EnumType.to_model_data`: enum members
expose their underlying value; a model instance could expose a field of
that name; everything else raises `AttributeError`. -/
def getValueAttr : PyVal → Except PyError PyVal
  | .vEnumMember _ _ v => .ok v
  | .vModelInst _ attrs =>
    match lookupAttr attrs "value" with
    | some v => .ok v
    | none => .error (.attributeError "value")
  | _ => .error (.attributeError "value")

/-- Decimal digits `0` to `9` or lowercase hex letters `a` to `f`. -/
def isLowerHexC (c : Char) : Bool :=
  (48 ≤ c.toNat && c.toNat ≤ 57) || (97 ≤ c.toNat && c.toNat ≤ 102)

/-- Hexadecimal digits of either case. -/
def isHexC (c : Char) : Bool :=
  isLowerHexC c || (65 ≤ c.toNat && c.toNat ≤ 70)

/-- Lowers an uppercase hex letter, fixes every other character. -/
def lowerHexChar (c : Char) : Char :=
  if 65 ≤ c.toNat && c.toNat ≤ 70 then Char.ofNat (c.toNat + 32) else c

/-- Splits a character list at dashes, keeping empty groups. -/
def splitDash : List Char → List (List Char)
  | [] => [[]]
  | c :: cs =>
    match splitDash cs with
    | [] => [[]]
    | g :: gs => if c == '-' then [] :: g :: gs else (c :: g) :: gs

/-- Shape of the canonical UUID text: five dash-separated groups of
8, 4, 4, 4 and 12 characters. -/
def uuidShapeOk (l : List Char) : Bool :=
  (splitDash l).map List.length == [8, 4, 4, 4, 12]

/-- Modelled from the spec: the standard-library UUID collaborator used by
`UniqueIdType.create_instance`, which per the spec parses a textual
canonical form into the structured identifier and fails with a conversion
error if the text is not a valid identifier string. Canonical text is five
dash-separated hexadecimal groups of 8-4-4-4-12 characters, either case;
the structured identifier is carried as the lowercase canonical text. -/
def uuidParse (s : String) : Except PyError String :=
  if uuidShapeOk s.data && s.data.all (fun c => isHexC c || c == '-') then
    .ok (String.mk (s.data.map lowerHexChar))
  else
    .error (.conversionError "badly formed hexadecimal UUID string")

/-- Canonical lowercase UUID text: correctly shaped with no uppercase hex
letters, the form `str(uuid.UUID(...))` itself produces. -/
def isUuidCanonicalLower (s : String) : Bool :=
  uuidShapeOk s.data && s.data.all (fun c => isLowerHexC c || c == '-')

/-- Python `str` on the embedded values, as far as the module applies it:
`UniqueIdType.to_model_data` renders a structured identifier to its
canonical text, and `HashType.to_model_data` renders a hashed-value wrapper
to its textual form. Modelled from the spec for the hashed case: the
hashing collaborator (`hash_function.Hashed`, not under src/) is a wrapper
with a single-argument constructor and a textual rendering, and the
round-trip law of the specification reads the rendering back as the wrapped
raw text. The remaining cases are unexercised placeholders. -/
def pyStr : PyVal → String
  | .vNone => "None"
  | .vBool b => if b then "True" else "False"
  | .vInt n => toString n
  | .vFloat tag => toString tag
  | .vStr s => s
  | .vDatetime tag => toString tag
  | .vUUID text => text
  | .vEnumMember en n _ => en ++ "." ++ n
  | .vList _ => "[...]"
  | .vModelInst mn _ => mn ++ " instance"
  | .vHashed v => pyStr v

/-- The five scalar descriptor classes that only fix a native type and
inherit everything else: StringType, IntType, FloatType, BoolType and
DatetimeType. -/
inductive ScalarKind where
  | stringK : ScalarKind
  | intK : ScalarKind
  | floatK : ScalarKind
  | boolK : ScalarKind
  | datetimeK : ScalarKind

/-- The `type` property of each scalar descriptor class. -/
def scalarNativeType : ScalarKind → PyType
  | .stringK => .tStr
  | .intK => .tInt
  | .floatK => .tFloat
  | .boolK => .tBool
  | .datetimeK => .tDatetime

/-- Conversion state of a finished descriptor: everything its
`create_instance` and `to_model_data` read. The list descriptor stores
whether its element class is a `ModelTypeBase` subclass (the test both
conversions run) and the element descriptor instance its initializer may
have built. -/
inductive DescInstance where
  | stringD : DescInstance
  | intD : DescInstance
  | floatD : DescInstance
  | boolD : DescInstance
  | datetimeD : DescInstance
  | uniqueIdD : DescInstance
  | enumD (e : PyEnum) : DescInstance
  | foreignD (m : PyModel) (pk : String) : DescInstance
  | listD (elemIsDescCls : Bool) (elemInst : Option DescInstance) : DescInstance
  | hashedD : DescInstance

/-- A fully constructed descriptor: the base constraint state plus the
variant conversion state. -/
structure BuiltDesc where
  base : Descriptor
  inst : DescInstance

/-- Map a scalar class to its conversion state. -/
def scalarInst : ScalarKind → DescInstance
  | .stringK => .stringD
  | .intK => .intD
  | .floatK => .floatD
  | .boolK => .boolD
  | .datetimeK => .datetimeD

/-- Constructor of a scalar descriptor class: the inherited base
initializer at the fixed native type. -/
def scalarTypeInit (k : ScalarKind) (primary non_null unique : Bool)
    (dflt : PyVal) : Except PyError BuiltDesc :=
  match modelTypeBaseInit (.ok (scalarNativeType k)) primary non_null unique dflt with
  | .ok base => .ok ⟨base, scalarInst k⟩
  | .error e => .error e

/-- The default-parameter expression `uuid.uuid4()` in the signature of
`UniqueIdType.__init__` is evaluated once, when the class statement is
executed; this constant is that single generated identifier, shared by
every later call that omits the argument. -/
def classDefUuidText : String := "7b9d2f40-51c3-4b2e-9a67-0d8e13c45af2"

/-- Constructor of `UniqueIdType`. `dfltArg` is `none` when the caller
omits the parameter, in which case the class-definition-time identifier is
the effective default; an explicit argument (including an explicit `None`)
is passed through. Its `type` property returns `uuid.UUID` with no instance
state, so the base initializer can read it. -/
def uniqueIdTypeInit (primary non_null unique : Bool) (dfltArg : Option PyVal) :
    Except PyError BuiltDesc :=
  match modelTypeBaseInit (.ok .tUUID) primary non_null unique
      (dfltArg.getD (.vUUID classDefUuidText)) with
  | .ok base => .ok ⟨base, .uniqueIdD⟩
  | .error e => .error e

/-- Constructor of `EnumType`. Its `type` property reads `self.__enum`,
which the initializer assigns only after the base initializer returns, so
the read the base initializer performs for a non-`None` default raises
`AttributeError`. -/
def enumTypeInit (e : PyEnum) (primary non_null unique : Bool) (dflt : PyVal) :
    Except PyError BuiltDesc :=
  match modelTypeBaseInit
      (.error (.attributeError "EnumType object has no attribute _EnumType__enum"))
      primary non_null unique dflt with
  | .ok base => .ok ⟨base, .enumD e⟩
  | .error e => .error e

/-- The model-argument resolution at the top of `ForeignType.__init__`
after the base call: a name is resolved through the registry, a class is
used directly. -/
def resolveModelArg (registry : List (String × PyModel)) : ModelArg → Except PyError PyModel
  | .byName s => get_loaded_model registry s
  | .byClass m => .ok m

/-- Constructor of `ForeignType`. The base initializer runs first (its
`type` property reads `self.__model`, assigned afterwards, so a non-`None`
default raises `AttributeError` there); then a model name is resolved
through the registry, and the foreign primary-key name defaults to the
resolved model's own. -/
def foreignTypeInit (registry : List (String × PyModel)) (marg : ModelArg)
    (model_primary_key : Option String) (primary non_null unique : Bool)
    (dflt : PyVal) : Except PyError BuiltDesc :=
  match modelTypeBaseInit
      (.error (.attributeError "ForeignType object has no attribute _ForeignType__model"))
      primary non_null unique dflt with
  | .error e => .error e
  | .ok base =>
    match resolveModelArg registry marg with
    | .error e => .error e
    | .ok m => .ok ⟨base, .foreignD m (model_primary_key.getD m.primaryKeyName)⟩

/-- Constructor of `HashType`. Its `type` property imports the hashing
collaborator class and returns it, reading no instance state, so the base
initializer can run it. -/
def hashTypeInit (primary non_null unique : Bool) (dflt : PyVal) :
    Except PyError BuiltDesc :=
  match modelTypeBaseInit (.ok .tHashed) primary non_null unique dflt with
  | .ok base => .ok ⟨base, .hashedD⟩
  | .error e => .error e

/-- Descriptor classes a `ListType` element specification can name and
construct with forwarded arguments: the classes whose constructors take
only the base flags and default. -/
inductive DescCls where
  | scalarC (k : ScalarKind) : DescCls
  | uniqueIdC : DescCls
  | hashC : DescCls

/-- The constructor arguments `ListType.__init__` forwards to a descriptor
element class. -/
structure InnerArgs where
  primary : Bool
  non_null : Bool
  unique : Bool
  dfltArg : Option PyVal

/-- Construct a descriptor element class with the forwarded arguments. -/
def constructDescCls : DescCls → InnerArgs → Except PyError BuiltDesc
  | .scalarC k, ia => scalarTypeInit k ia.primary ia.non_null ia.unique (ia.dfltArg.getD .vNone)
  | .uniqueIdC, ia => uniqueIdTypeInit ia.primary ia.non_null ia.unique ia.dfltArg
  | .hashC, ia => hashTypeInit ia.primary ia.non_null ia.unique (ia.dfltArg.getD .vNone)

/-- The element specification `dt` of `ListType.__init__`: a model class, an
enumeration class, a descriptor class, or a plain scalar class matching none
of the initializer's `issubclass` branches. Model classes and enumeration
classes are not `ModelTypeBase` subclasses (models and descriptors are
distinct hierarchies, and `enum.Enum` is a standard-library class), so only
the descriptor-class case satisfies `issubclass(dt, ModelTypeBase)`. -/
inductive DType where
  | dModel (m : PyModel) : DType
  | dEnum (e : PyEnum) : DType
  | dCls (c : DescCls) : DType
  | dScalar (t : PyType) : DType

/-- Constructor of `ListType`: the base initializer at native type `list`,
then the element branch of the source: a model class gets a `ForeignType`
element descriptor, an enumeration class an `EnumType` element descriptor,
a descriptor class an instance constructed with the forwarded arguments,
and a plain scalar class no element descriptor at all. The stored Boolean
is `issubclass(dt, ModelTypeBase)`, the test both conversions run: true
only for the descriptor-class branch. -/
def listTypeInit (dt : DType) (ia : InnerArgs) (primary non_null unique : Bool)
    (dflt : PyVal) : Except PyError BuiltDesc :=
  match modelTypeBaseInit (.ok .tList) primary non_null unique dflt with
  | .error e => .error e
  | .ok base =>
    match dt with
    | .dModel m =>
      match foreignTypeInit [] (.byClass m) none false false false .vNone with
      | .error e => .error e
      | .ok fd => .ok ⟨base, .listD false (some fd.inst)⟩
    | .dEnum e0 =>
      match enumTypeInit e0 false false false .vNone with
      | .error e => .error e
      | .ok ed => .ok ⟨base, .listD false (some ed.inst)⟩
    | .dCls c =>
      match constructDescCls c ia with
      | .error e => .error e
      | .ok cd => .ok ⟨base, .listD true (some cd.inst)⟩
    | .dScalar _ => .ok ⟨base, .listD false none⟩

/-- One constructor call of any descriptor variant, with the variant-fixed
arguments bundled and the shared flag and default arguments explicit.
`dfltArg = none` is an omitted default parameter. -/
inductive DescSpec where
  | scalarS (k : ScalarKind) : DescSpec
  | uniqueIdS : DescSpec
  | enumS (e : PyEnum) : DescSpec
  | foreignS (registry : List (String × PyModel)) (marg : ModelArg)
      (model_primary_key : Option String) : DescSpec
  | listS (dt : DType) (ia : InnerArgs) : DescSpec
  | hashS : DescSpec

/-- Whether a constructor call is a `UniqueIdType` construction (the one
class whose omitted default is not `None`). -/
def isUniqueIdSpec : DescSpec → Bool
  | .uniqueIdS => true
  | _ => false

/-- Dispatch a constructor call to the variant constructor. Every class
other than `UniqueIdType` declares `default=None`, so an omitted argument
becomes the stored `None`. -/
def construct : DescSpec → Bool → Bool → Bool → Option PyVal → Except PyError BuiltDesc
  | .scalarS k, p, nn, u, dArg => scalarTypeInit k p nn u (dArg.getD .vNone)
  | .uniqueIdS, p, nn, u, dArg => uniqueIdTypeInit p nn u dArg
  | .enumS e, p, nn, u, dArg => enumTypeInit e p nn u (dArg.getD .vNone)
  | .foreignS reg marg mpk, p, nn, u, dArg => foreignTypeInit reg marg mpk p nn u (dArg.getD .vNone)
  | .listS dt ia, p, nn, u, dArg => listTypeInit dt ia p nn u (dArg.getD .vNone)
  | .hashS, p, nn, u, dArg => hashTypeInit p nn u (dArg.getD .vNone)

mutual

/-- The `create_instance` method of each variant, on the conversion state.
Scalar classes inherit the identity of the base. `UniqueIdType` parses the
raw text into the structured identifier. `EnumType` calls the enumeration
on the raw value: the member whose underlying value equals it, else a
conversion error. `ForeignType` asks the model loader for the instance
whose primary-key field equals the value. `ListType` converts element-wise
only when `issubclass(self.__data_type, ModelTypeBase)` holds, and
otherwise returns the value unchanged; the stored element descriptor is
consulted only in that branch. `HashType` wraps the raw value. -/
def create_instance : DescInstance → PyVal → Except PyError PyVal
  | .stringD, v => .ok v
  | .intD, v => .ok v
  | .floatD, v => .ok v
  | .boolD, v => .ok v
  | .datetimeD, v => .ok v
  | .uniqueIdD, .vStr s =>
    match uuidParse s with
    | .ok t => .ok (.vUUID t)
    | .error e => .error e
  | .uniqueIdD, _ => .error (.typeError "UUID argument must be a string")
  | .enumD e, v =>
    match e.members.find? (fun m => pyEq m.2 v) with
    | some m => .ok (.vEnumMember e.name m.1 m.2)
    | none => .error (.conversionError "value is not a valid member of the enumeration")
  | .foreignD m pk, v => m.load pk v
  | .listD true (some d), .vList xs =>
    match create_instance_list d xs with
    | .ok ys => .ok (.vList ys)
    | .error e => .error e
  | .listD true (some _), _ => .error (.typeError "conversion source is not iterable")
  | .listD true none, _ =>
    .error (.attributeError "ListType object has no attribute _ListType__data_instance")
  | .listD false _, v => .ok v
  | .hashedD, v => .ok (.vHashed v)

/-- The list comprehension of `ListType.create_instance`: element-wise
conversion, failing on the first failing element. -/
def create_instance_list : DescInstance → List PyVal → Except PyError (List PyVal)
  | _, [] => .ok []
  | d, x :: xs =>
    match create_instance d x with
    | .error e => .error e
    | .ok y =>
      match create_instance_list d xs with
      | .error e => .error e
      | .ok ys => .ok (y :: ys)

end

mutual

/-- The `to_model_data` method of each variant, on the conversion state.
Scalar classes inherit the identity of the base. `UniqueIdType` and
`HashType` render the value to text. `EnumType` reads the `value` attribute
off the member. `ForeignType` reads the primary-key attribute off the
instance. `ListType` converts element-wise exactly when `create_instance`
does. -/
def to_model_data : DescInstance → PyVal → Except PyError PyVal
  | .stringD, v => .ok v
  | .intD, v => .ok v
  | .floatD, v => .ok v
  | .boolD, v => .ok v
  | .datetimeD, v => .ok v
  | .uniqueIdD, v => .ok (.vStr (pyStr v))
  | .enumD _, v => getValueAttr v
  | .foreignD _ pk, v => getattrPy v pk
  | .listD true (some d), .vList xs =>
    match to_model_data_list d xs with
    | .ok ys => .ok (.vList ys)
    | .error e => .error e
  | .listD true (some _), _ => .error (.typeError "conversion source is not iterable")
  | .listD true none, _ =>
    .error (.attributeError "ListType object has no attribute _ListType__data_instance")
  | .listD false _, v => .ok v
  | .hashedD, v => .ok (.vStr (pyStr v))

/-- The list comprehension of `ListType.to_model_data`. -/
def to_model_data_list : DescInstance → List PyVal → Except PyError (List PyVal)
  | _, [] => .ok []
  | d, x :: xs =>
    match to_model_data d x with
    | .error e => .error e
    | .ok y =>
      match to_model_data_list d xs with
      | .error e => .error e
      | .ok ys => .ok (y :: ys)

end

/-- A sample enumeration with three int-valued members, as in the testable
properties of the specification. -/
def color : PyEnum := ⟨"Color", [("RED", .vInt 1), ("GREEN", .vInt 2), ("BLUE", .vInt 3)]⟩

/-- A sample model with primary key `id` whose loader returns a stub
instance carrying the requested key, as in the testable properties of the
specification. -/
def order : PyModel :=
  ⟨"Order", "id", fun k v => .ok (.vModelInst "Order" [(k, v)])⟩

/-- No value of the list `pyEq`-matches `w` (first argument side). -/
def headMatchesNone (w : PyVal) : List (String × PyVal) → Bool
  | [] => true
  | m :: t => !(pyEq w m.2) && headMatchesNone w t

/-- The member values of the list are pairwise `pyEq`-distinct: the state a
Python enumeration presents after alias removal. -/
def valuesDistinct : List (String × PyVal) → Bool
  | [] => true
  | m :: t => headMatchesNone m.2 t && valuesDistinct t

/-- No member value of the list `pyEq`-matches `raw` (member side first,
the orientation of the lookup in `create_instance`). -/
def rawMatchesNone (raw : PyVal) : List (String × PyVal) → Bool
  | [] => true
  | m :: t => !(pyEq m.2 raw) && rawMatchesNone raw t

mutual

/-- `pyEq` is reflexive. -/
theorem pyEq_refl : (v : PyVal) → pyEq v v = true
  | .vNone => rfl
  | .vBool b => by simp [pyEq]
  | .vInt n => by simp [pyEq]
  | .vFloat t => by simp [pyEq]
  | .vStr s => by simp [pyEq]
  | .vDatetime t => by simp [pyEq]
  | .vUUID t => by simp [pyEq]
  | .vEnumMember e n v => by simp [pyEq, pyEq_refl v]
  | .vList xs => by simp [pyEq, pyEqList_refl xs]
  | .vModelInst n a => by simp [pyEq, pyEqAttrs_refl a]
  | .vHashed v => by simp [pyEq, pyEq_refl v]

/-- `pyEqList` is reflexive. -/
theorem pyEqList_refl : (l : List PyVal) → pyEqList l l = true
  | [] => rfl
  | x :: t => by simp [pyEqList, pyEq_refl x, pyEqList_refl t]

/-- `pyEqAttrs` is reflexive. -/
theorem pyEqAttrs_refl : (l : List (String × PyVal)) → pyEqAttrs l l = true
  | [] => rfl
  | (k, v) :: t => by simp [pyEqAttrs, pyEq_refl v, pyEqAttrs_refl t]

end

/-- Membership in a `headMatchesNone` list gives the pointwise fact. -/
theorem headMatchesNone_mem {w : PyVal} {l : List (String × PyVal)} {n : String}
    {v : PyVal} (hall : headMatchesNone w l = true) (hmem : (n, v) ∈ l) :
    pyEq w v = false := by
  induction l with
  | nil => cases hmem
  | cons m t ih =>
    rw [headMatchesNone, Bool.and_eq_true] at hall
    rcases List.mem_cons.mp hmem with h | h
    · have := hall.1
      rw [← h] at this
      simpa using this
    · exact ih hall.2 h

/-- Looking a member value up in a value-distinct member list finds exactly
that member. -/
theorem find_member {l : List (String × PyVal)} {n : String} {v : PyVal}
    (hmem : (n, v) ∈ l) (hd : valuesDistinct l = true) :
    l.find? (fun m => pyEq m.2 v) = some (n, v) := by
  induction l with
  | nil => cases hmem
  | cons m t ih =>
    rw [valuesDistinct, Bool.and_eq_true] at hd
    obtain ⟨mn, mv⟩ := m
    rcases List.mem_cons.mp hmem with h | h
    · obtain ⟨hn, hv⟩ := Prod.mk.injEq .. ▸ h
      subst hn; subst hv
      simp [List.find?_cons, pyEq_refl]
    · have hskip : pyEq mv v = false := headMatchesNone_mem hd.1 h
      simp [List.find?_cons, hskip, ih h hd.2]

/-- Looking up a value no member matches finds nothing. -/
theorem find_no_member {l : List (String × PyVal)} {raw : PyVal}
    (h : rawMatchesNone raw l = true) : l.find? (fun m => pyEq m.2 raw) = none := by
  induction l with
  | nil => rfl
  | cons m t ih =>
    rw [rawMatchesNone, Bool.and_eq_true] at h
    have h1 : pyEq m.2 raw = false := by simpa using h.1
    simp [List.find?_cons, h1, ih h.2]

/-- Lowering fixes a character that is already a lowercase hex digit or a
dash. -/
theorem lowerHexChar_fix {c : Char} (h : (isLowerHexC c || c == '-') = true) :
    lowerHexChar c = c := by
  rw [Bool.or_eq_true] at h
  rcases h with h1 | h2
  · rw [isLowerHexC] at h1
    have hno : (65 ≤ c.toNat && c.toNat ≤ 70) = false := by
      simp only [Bool.or_eq_true, Bool.and_eq_true, decide_eq_true_eq] at h1
      simp only [Bool.and_eq_false_iff, decide_eq_false_iff_not, not_le]
      omega
    rw [lowerHexChar, hno]
    rfl
  · have : c = '-' := by simpa using h2
    subst this
    rfl

/-- Lowering fixes canonical lowercase UUID text. -/
theorem map_lowerHexChar_fix {l : List Char}
    (h : l.all (fun c => isLowerHexC c || c == '-') = true) :
    l.map lowerHexChar = l := by
  induction l with
  | nil => rfl
  | cons c t ih =>
    rw [List.all_cons, Bool.and_eq_true] at h
    rw [List.map_cons, lowerHexChar_fix h.1, ih h.2]

/-- Lowercase hex characters are hex characters. -/
theorem all_hex_of_lower {l : List Char}
    (h : l.all (fun c => isLowerHexC c || c == '-') = true) :
    l.all (fun c => isHexC c || c == '-') = true := by
  induction l with
  | nil => rfl
  | cons c t ih =>
    rw [List.all_cons, Bool.and_eq_true] at h
    rw [List.all_cons, Bool.and_eq_true]
    refine ⟨?_, ih h.2⟩
    have hor := h.1
    rw [Bool.or_eq_true] at hor
    rcases hor with h1 | h2
    · rw [isHexC]
      simp [h1]
    · simp [h2]

/-- Parsing canonical lowercase UUID text succeeds and preserves it. -/
theorem uuidParse_canonical {s : String} (h : isUuidCanonicalLower s = true) :
    uuidParse s = .ok s := by
  rw [isUuidCanonicalLower, Bool.and_eq_true] at h
  rw [uuidParse, h.1, all_hex_of_lower h.2]
  simp only [Bool.true_and, if_pos]
  rw [map_lowerHexChar_fix h.2]

/-- Element-wise round trip: if every element of the raw list round-trips,
the two list comprehensions compose to the identity on it. -/
theorem list_roundtrip_aux (d : DescInstance) (xs : List PyVal)
    (h : ∀ x ∈ xs, (create_instance d x).bind (to_model_data d) = .ok x) :
    ∃ ys, create_instance_list d xs = .ok ys ∧ to_model_data_list d ys = .ok xs := by
  induction xs with
  | nil => exact ⟨[], rfl, rfl⟩
  | cons x t ih =>
    have hx := h x (List.mem_cons_self x t)
    obtain ⟨ys, h1, h2⟩ := ih (fun y hy => h y (List.mem_cons_of_mem x hy))
    cases hcx : create_instance d x with
    | error e => rw [hcx] at hx; simp [Except.bind] at hx
    | ok y =>
      rw [hcx] at hx
      simp only [Except.bind] at hx
      exact ⟨y :: ys, by rw [create_instance_list, hcx, h1],
        by rw [to_model_data_list, hx, h2]⟩

/-- A base construction with `primary = true` that returns stores both
forced flags as true. -/
theorem base_primary_forces {ty : Except PyError PyType} {nn u : Bool} {dflt : PyVal}
    {b : Descriptor} (h : modelTypeBaseInit ty true nn u dflt = .ok b) :
    b.unique = true ∧ b.non_null = true := by
  rw [modelTypeBaseInit.eq_def] at h
  split at h
  · cases h
  · split at h
    · cases h
      exact ⟨rfl, rfl⟩
    · split at h
      · cases h
      · split at h
        · cases h
          exact ⟨rfl, rfl⟩
        · cases h

/-- A successful scalar construction embeds a successful base construction. -/
theorem scalarTypeInit_ok {k : ScalarKind} {p nn u : Bool} {dflt : PyVal} {d : BuiltDesc}
    (h : scalarTypeInit k p nn u dflt = .ok d) :
    modelTypeBaseInit (.ok (scalarNativeType k)) p nn u dflt = .ok d.base := by
  rw [scalarTypeInit] at h
  split at h
  next base hb => cases h; exact hb
  next e hb => cases h

/-- A successful `UniqueIdType` construction embeds a successful base
construction at the effective default. -/
theorem uniqueIdTypeInit_ok {p nn u : Bool} {dArg : Option PyVal} {d : BuiltDesc}
    (h : uniqueIdTypeInit p nn u dArg = .ok d) :
    modelTypeBaseInit (.ok .tUUID) p nn u (dArg.getD (.vUUID classDefUuidText)) = .ok d.base := by
  rw [uniqueIdTypeInit] at h
  split at h
  next base hb => cases h; exact hb
  next e hb => cases h

/-- A successful `EnumType` construction embeds a successful base
construction. -/
theorem enumTypeInit_ok {e : PyEnum} {p nn u : Bool} {dflt : PyVal} {d : BuiltDesc}
    (h : enumTypeInit e p nn u dflt = .ok d) :
    modelTypeBaseInit
      (.error (.attributeError "EnumType object has no attribute _EnumType__enum"))
      p nn u dflt = .ok d.base := by
  rw [enumTypeInit] at h
  split at h
  next base hb => cases h; exact hb
  next e0 hb => cases h

/-- A successful `HashType` construction embeds a successful base
construction. -/
theorem hashTypeInit_ok {p nn u : Bool} {dflt : PyVal} {d : BuiltDesc}
    (h : hashTypeInit p nn u dflt = .ok d) :
    modelTypeBaseInit (.ok .tHashed) p nn u dflt = .ok d.base := by
  rw [hashTypeInit] at h
  split at h
  next base hb => cases h; exact hb
  next e hb => cases h

/-- A successful `ForeignType` construction embeds a successful base
construction. -/
theorem foreignTypeInit_ok {reg : List (String × PyModel)} {marg : ModelArg}
    {mpk : Option String} {p nn u : Bool} {dflt : PyVal} {d : BuiltDesc}
    (h : foreignTypeInit reg marg mpk p nn u dflt = .ok d) :
    modelTypeBaseInit
      (.error (.attributeError "ForeignType object has no attribute _ForeignType__model"))
      p nn u dflt = .ok d.base := by
  rw [foreignTypeInit.eq_def] at h
  split at h
  next e hb => cases h
  next base hb =>
    split at h
    · cases h
    · cases h; exact hb

/-- A successful `ListType` construction embeds a successful base
construction. -/
theorem listTypeInit_ok {dt : DType} {ia : InnerArgs} {p nn u : Bool} {dflt : PyVal}
    {d : BuiltDesc} (h : listTypeInit dt ia p nn u dflt = .ok d) :
    modelTypeBaseInit (.ok .tList) p nn u dflt = .ok d.base := by
  cases dt with
  | dModel m =>
    simp only [listTypeInit.eq_def] at h
    split at h
    next e hb => cases h
    next base hb =>
      split at h
      · cases h
      · cases h; exact hb
  | dEnum e0 =>
    simp only [listTypeInit.eq_def] at h
    split at h
    next e hb => cases h
    next base hb =>
      split at h
      · cases h
      · cases h; exact hb
  | dCls c =>
    simp only [listTypeInit.eq_def] at h
    split at h
    next e hb => cases h
    next base hb =>
      split at h
      · cases h
      · cases h; exact hb
  | dScalar t =>
    simp only [listTypeInit.eq_def] at h
    split at h
    next e hb => cases h
    next base hb => cases h; exact hb

/-- C3: for every descriptor variant, any flag combination and any default
argument, a construction with `primary = true` that succeeds yields a
descriptor whose `unique` accessor and `non_null` accessor both return
true, whatever `unique` and `non_null` arguments were passed. -/
theorem primary_forces_unique_non_null (s : DescSpec) (nn u : Bool)
    (dArg : Option PyVal) (d : BuiltDesc)
    (h : construct s true nn u dArg = .ok d) :
    d.base.unique = true ∧ d.base.non_null = true := by
  cases s with
  | scalarS k => exact base_primary_forces (scalarTypeInit_ok h)
  | uniqueIdS => exact base_primary_forces (uniqueIdTypeInit_ok h)
  | enumS e => exact base_primary_forces (enumTypeInit_ok h)
  | foreignS reg marg mpk => exact base_primary_forces (foreignTypeInit_ok h)
  | listS dt ia => exact base_primary_forces (listTypeInit_ok h)
  | hashS => exact base_primary_forces (hashTypeInit_ok h)

/-- Witness for C3: a concrete string descriptor constructed with
`primary = true` and both other flags false carries both forced flags. -/
theorem primary_forces_unique_non_null_witness :
    (⟨⟨true, true, true, .vNone⟩, .stringD⟩ : BuiltDesc).base.unique = true
    ∧ (⟨⟨true, true, true, .vNone⟩, .stringD⟩ : BuiltDesc).base.non_null = true :=
  primary_forces_unique_non_null (.scalarS .stringK) false false none
    ⟨⟨true, true, true, .vNone⟩, .stringD⟩ rfl

/-- C4 counterexample: `UniqueIdType(non_null=True)` — non-null requested
and no default supplied — succeeds instead of failing with the
configuration error, because the identifier generated once at class
definition time stands in as the default. -/
theorem uniqueid_non_null_without_default_succeeds :
    isOkE (construct .uniqueIdS false true false none) = true
    ∧ isConfigurationError (construct .uniqueIdS false true false none) = false :=
  ⟨rfl, rfl⟩

/-- C4 (amended): constructing any descriptor variant other than
`UniqueIdType` with `non_null = true` and no default supplied fails with
the configuration error, whatever the other flags; `UniqueIdType` instead
succeeds, its class-definition-time identifier serving as the default. -/
theorem non_null_without_default_fails (s : DescSpec) (p u : Bool) :
    (isUniqueIdSpec s = false →
      isConfigurationError (construct s p true u none) = true)
    ∧ (isUniqueIdSpec s = true → isOkE (construct s p true u none) = true) := by
  constructor
  · intro hs
    cases s with
    | scalarS k => rfl
    | uniqueIdS => simp [isUniqueIdSpec] at hs
    | enumS e => rfl
    | foreignS reg marg mpk => rfl
    | listS dt ia => rfl
    | hashS => rfl
  · intro hs
    cases s with
    | scalarS k => simp [isUniqueIdSpec] at hs
    | uniqueIdS => rfl
    | enumS e => simp [isUniqueIdSpec] at hs
    | foreignS reg marg mpk => simp [isUniqueIdSpec] at hs
    | listS dt ia => simp [isUniqueIdSpec] at hs
    | hashS => simp [isUniqueIdSpec] at hs

/-- Witness for C4: the amended claim at an integer descriptor (fails with
the configuration error) and at a `UniqueIdType` with `primary` also set
(succeeds). -/
theorem non_null_without_default_fails_witness :
    isConfigurationError (construct (.scalarS .intK) false true false none) = true
    ∧ isOkE (construct .uniqueIdS true true false none) = true :=
  ⟨(non_null_without_default_fails (.scalarS .intK) false false).1 rfl,
   (non_null_without_default_fails .uniqueIdS true false).2 rfl⟩

/-- C9: any two `UniqueIdType` constructions that omit the default argument
store the same default identifier — the one `uuid.uuid4()` call evaluated
when the class was defined — not a freshly generated one per construction. -/
theorem uniqueid_shared_default (p1 nn1 u1 p2 nn2 u2 : Bool) (d1 d2 : BuiltDesc)
    (h1 : uniqueIdTypeInit p1 nn1 u1 none = .ok d1)
    (h2 : uniqueIdTypeInit p2 nn2 u2 none = .ok d2) :
    d1.base.default = d2.base.default
    ∧ d1.base.default = .vUUID classDefUuidText := by
  have key : ∀ (p nn u : Bool) (d : BuiltDesc), uniqueIdTypeInit p nn u none = .ok d →
      d.base.default = .vUUID classDefUuidText := by
    intro p nn u d h
    have hc : uniqueIdTypeInit p nn u none =
        .ok ⟨⟨p, p || nn, p || u, .vUUID classDefUuidText⟩, .uniqueIdD⟩ := by
      cases p <;> cases nn <;> cases u <;> rfl
    rw [hc] at h
    cases h
    rfl
  exact ⟨(key _ _ _ _ h1).trans (key _ _ _ _ h2).symm, key _ _ _ _ h1⟩

/-- Witness for C9: two concrete constructions with different flags and
omitted defaults share the class-definition identifier. -/
theorem uniqueid_shared_default_witness :
    (⟨⟨false, false, false, .vUUID classDefUuidText⟩, .uniqueIdD⟩ : BuiltDesc).base.default =
      (⟨⟨true, true, true, .vUUID classDefUuidText⟩, .uniqueIdD⟩ : BuiltDesc).base.default
    ∧ (⟨⟨false, false, false, .vUUID classDefUuidText⟩, .uniqueIdD⟩ : BuiltDesc).base.default =
      .vUUID classDefUuidText :=
  uniqueid_shared_default false false false true false false _ _ rfl rfl

/-- Whether a finished construction carries no default. -/
def defaultAbsent : Except PyError BuiltDesc → Bool
  | .ok d => d.base.default.isNone
  | .error _ => false

/-- C10 counterexample: `UniqueIdType(primary=True)` succeeds with
`non_null` forced true, but its default is not absent — it is the shared
class-definition-time identifier. -/
theorem uniqueid_primary_default_not_absent :
    isOkE (construct .uniqueIdS true false false none) = true
    ∧ defaultAbsent (construct .uniqueIdS true false false none) = false :=
  ⟨rfl, rfl⟩

/-- C10 (amended): constructing any descriptor with `primary = true`,
`non_null` false or omitted, and no default succeeds (whenever the
variant-specific arguments themselves construct, as witnessed by a vanilla
construction), and yields a descriptor whose `non_null` accessor returns
true: the non-null-requires-default check reads the passed `non_null`
argument before `primary` forces the stored flag, so it is bypassed for
primary fields. The default is absent for every variant except
`UniqueIdType`, whose omitted default is the shared class-definition-time
identifier. -/
theorem primary_bypasses_non_null_check (s : DescSpec)
    (hok : isOkE (construct s false false false none) = true) :
    isOkE (construct s true false false none) = true
    ∧ ∀ d, construct s true false false none = .ok d →
        d.base.non_null = true
        ∧ d.base.default =
          (if isUniqueIdSpec s then PyVal.vUUID classDefUuidText else PyVal.vNone) := by
  cases s with
  | scalarS k => exact ⟨rfl, fun d hd => by cases hd; exact ⟨rfl, rfl⟩⟩
  | uniqueIdS => exact ⟨rfl, fun d hd => by cases hd; exact ⟨rfl, rfl⟩⟩
  | enumS e => exact ⟨rfl, fun d hd => by cases hd; exact ⟨rfl, rfl⟩⟩
  | hashS => exact ⟨rfl, fun d hd => by cases hd; exact ⟨rfl, rfl⟩⟩
  | foreignS reg marg mpk =>
    cases hg : resolveModelArg reg marg with
    | error e =>
      have hzero : construct (.foreignS reg marg mpk) false false false none = .error e := by
        simp [construct, foreignTypeInit.eq_def, modelTypeBaseInit.eq_def, PyVal.isNone, hg]
      rw [hzero] at hok
      simp [isOkE] at hok
    | ok m =>
      have hc : construct (.foreignS reg marg mpk) true false false none =
          .ok ⟨⟨true, true, true, .vNone⟩, .foreignD m (mpk.getD m.primaryKeyName)⟩ := by
        simp [construct, foreignTypeInit.eq_def, modelTypeBaseInit.eq_def, PyVal.isNone, hg]
      refine ⟨by rw [hc]; rfl, fun d hd => ?_⟩
      rw [hc] at hd
      cases hd
      exact ⟨rfl, rfl⟩
  | listS dt ia =>
    cases dt with
    | dModel m => exact ⟨rfl, fun d hd => by cases hd; exact ⟨rfl, rfl⟩⟩
    | dEnum e0 => exact ⟨rfl, fun d hd => by cases hd; exact ⟨rfl, rfl⟩⟩
    | dScalar t => exact ⟨rfl, fun d hd => by cases hd; exact ⟨rfl, rfl⟩⟩
    | dCls c =>
      cases hc : constructDescCls c ia with
      | error e =>
        have hzero : construct (.listS (.dCls c) ia) false false false none = .error e := by
          simp [construct, listTypeInit.eq_def, modelTypeBaseInit.eq_def, PyVal.isNone, hc]
        rw [hzero] at hok
        simp [isOkE] at hok
      | ok cd =>
        have hcon : construct (.listS (.dCls c) ia) true false false none =
            .ok ⟨⟨true, true, true, .vNone⟩, .listD true (some cd.inst)⟩ := by
          simp [construct, listTypeInit.eq_def, modelTypeBaseInit.eq_def, PyVal.isNone, hc]
        refine ⟨by rw [hcon]; rfl, fun d hd => ?_⟩
        rw [hcon] at hd
        cases hd
        exact ⟨rfl, rfl⟩

/-- Witness for C10: the amended claim at a concrete Boolean descriptor. -/
theorem primary_bypasses_non_null_check_witness :
    isOkE (construct (.scalarS .boolK) true false false none) = true
    ∧ ((⟨⟨true, true, true, .vNone⟩, .boolD⟩ : BuiltDesc).base.non_null = true
      ∧ (⟨⟨true, true, true, .vNone⟩, .boolD⟩ : BuiltDesc).base.default =
        (if isUniqueIdSpec (.scalarS .boolK) then PyVal.vUUID classDefUuidText
          else PyVal.vNone)) :=
  ⟨(primary_bypasses_non_null_check (.scalarS .boolK) rfl).1,
   (primary_bypasses_non_null_check (.scalarS .boolK) rfl).2 _ rfl⟩

/-- C1 (code evaluation at the failing input): a list descriptor over the
enumeration element type is constructed with an `EnumType` element
descriptor stored, yet both conversions return the raw sequence unchanged —
the `issubclass(self.__data_type, ModelTypeBase)` test is false for an
enumeration class — while the stored element descriptor itself would have
converted the raw value `1` to the member `RED`. -/
theorem list_enum_element_not_converted :
    (listTypeInit (.dEnum color) ⟨false, false, false, none⟩ false false false .vNone).bind
      (fun d => create_instance d.inst (.vList [.vInt 1])) = .ok (.vList [.vInt 1])
    ∧ (listTypeInit (.dEnum color) ⟨false, false, false, none⟩ false false false .vNone).bind
      (fun d => to_model_data d.inst (.vList [.vEnumMember "Color" "RED" (.vInt 1)]))
        = .ok (.vList [.vEnumMember "Color" "RED" (.vInt 1)])
    ∧ create_instance (.enumD color) (.vInt 1) = .ok (.vEnumMember "Color" "RED" (.vInt 1)) :=
  ⟨rfl, rfl, rfl⟩

/-- C2 (code evaluation at the failing input): constructing `EnumType` or
`ForeignType` with a supplied default — here one whose type matches the
native type, as the third conjunct records — fails with `AttributeError`,
because the base initializer reads the `type` property before the variant
state it returns has been assigned; it neither succeeds nor raises the
configuration error. -/
theorem enum_foreign_default_attribute_error :
    enumTypeInit color false false false (.vEnumMember "Color" "RED" (.vInt 1)) =
      .error (.attributeError "EnumType object has no attribute _EnumType__enum")
    ∧ foreignTypeInit [] (.byClass order) none false false false
        (.vModelInst "Order" [("id", .vInt 7)]) =
      .error (.attributeError "ForeignType object has no attribute _ForeignType__model")
    ∧ isinst (.vEnumMember "Color" "RED" (.vInt 1)) (.tEnum "Color") = true :=
  ⟨rfl, rfl, rfl⟩

/-- C6: for an enumeration with value-distinct members, `create_instance`
maps each member's underlying value back to that member, `to_model_data`
maps each member to its underlying value, and a raw value matching no
member's underlying value fails with the conversion error. -/
theorem enum_conversion (e : PyEnum) (hd : valuesDistinct e.members = true) :
    (∀ n v, (n, v) ∈ e.members →
      create_instance (.enumD e) v = .ok (.vEnumMember e.name n v))
    ∧ (∀ n v, to_model_data (.enumD e) (.vEnumMember e.name n v) = .ok v)
    ∧ (∀ raw, rawMatchesNone raw e.members = true →
      create_instance (.enumD e) raw =
        .error (.conversionError "value is not a valid member of the enumeration")) := by
  refine ⟨fun n v hm => ?_, fun n v => rfl, fun raw hr => ?_⟩
  · simp only [create_instance, find_member hm hd]
  · simp only [create_instance, find_no_member hr]

/-- Witness for C6: the sample enumeration with values RED 1, GREEN 2,
BLUE 3 maps 1 to RED and back, and rejects 99 with the conversion error. -/
theorem enum_conversion_witness :
    create_instance (.enumD color) (.vInt 2) = .ok (.vEnumMember "Color" "GREEN" (.vInt 2))
    ∧ to_model_data (.enumD color) (.vEnumMember "Color" "GREEN" (.vInt 2)) = .ok (.vInt 2)
    ∧ isConversionError (create_instance (.enumD color) (.vInt 99)) = true := by
  refine ⟨(enum_conversion color rfl).1 "GREEN" (.vInt 2) ?_,
    (enum_conversion color rfl).2.1 "GREEN" (.vInt 2), ?_⟩
  · simp [color]
  · rw [(enum_conversion color rfl).2.2 (.vInt 99) rfl]
    rfl

/-- C7: a `ForeignType` built from model `M` (primary-key name defaulted
from the model or passed explicitly) converts a raw value by invoking the
loader with that single keyword argument and returning exactly what the
loader returns, and converts back by reading the primary-key attribute off
the given instance, failing with `AttributeError` when the instance lacks
it. -/
theorem foreign_conversion (reg : List (String × PyModel)) (m : PyModel)
    (mpk : Option String) (d : BuiltDesc)
    (h : foreignTypeInit reg (.byClass m) mpk false false false .vNone = .ok d) :
    d.inst = .foreignD m (mpk.getD m.primaryKeyName)
    ∧ (∀ v, create_instance d.inst v = m.load (mpk.getD m.primaryKeyName) v)
    ∧ (∀ nm attrs v, lookupAttr attrs (mpk.getD m.primaryKeyName) = some v →
        to_model_data d.inst (.vModelInst nm attrs) = .ok v)
    ∧ (∀ nm attrs, lookupAttr attrs (mpk.getD m.primaryKeyName) = none →
        to_model_data d.inst (.vModelInst nm attrs) =
          .error (.attributeError (mpk.getD m.primaryKeyName))) := by
  have hc : foreignTypeInit reg (.byClass m) mpk false false false .vNone =
      .ok ⟨⟨false, false, false, .vNone⟩, .foreignD m (mpk.getD m.primaryKeyName)⟩ := rfl
  rw [hc] at h
  cases h
  refine ⟨rfl, fun v => by simp only [create_instance], fun nm attrs v hv => ?_,
    fun nm attrs hn => ?_⟩
  · simp only [to_model_data, getattrPy, hv]
  · simp only [to_model_data, getattrPy, hn]

/-- Witness for C7: the stub `Order` model with primary key `id`: raw `7`
is passed to the loader as `id=7` and the loader's stub instance comes
back; reading the instance back gives `7`. -/
theorem foreign_conversion_witness :
    create_instance (DescInstance.foreignD order "id") (.vInt 7) =
      .ok (.vModelInst "Order" [("id", .vInt 7)])
    ∧ to_model_data (DescInstance.foreignD order "id") (.vModelInst "Order" [("id", .vInt 7)]) =
      .ok (.vInt 7) := by
  have h := foreign_conversion [] order none
    ⟨⟨false, false, false, .vNone⟩, .foreignD order "id"⟩ rfl
  exact ⟨(h.2.1 (.vInt 7)).trans rfl,
    h.2.2.1 "Order" [("id", .vInt 7)] (.vInt 7) rfl⟩

/-- C8: every scalar descriptor converts by the inherited identities —
`create_instance` and `to_model_data` return any value unchanged — and its
construction fails with exactly the errors of the base constructor at its
fixed native type, no more and no fewer. -/
theorem scalar_identity (k : ScalarKind) (x : PyVal) (p nn u : Bool) (dflt : PyVal) :
    create_instance (scalarInst k) x = .ok x
    ∧ to_model_data (scalarInst k) x = .ok x
    ∧ ∀ e : PyError, scalarTypeInit k p nn u dflt = .error e ↔
        modelTypeBaseInit (.ok (scalarNativeType k)) p nn u dflt = .error e := by
  refine ⟨?_, ?_, fun e => ?_⟩
  · cases k <;> simp [scalarInst, create_instance]
  · cases k <;> simp [scalarInst, to_model_data]
  · cases hb : modelTypeBaseInit (.ok (scalarNativeType k)) p nn u dflt with
    | ok base =>
      have hs : scalarTypeInit k p nn u dflt = .ok ⟨base, scalarInst k⟩ := by
        simp only [scalarTypeInit, hb]
      constructor
      · intro h'
        rw [hs] at h'
        cases h'
      · intro h'
        cases h'
    | error e0 =>
      have hs : scalarTypeInit k p nn u dflt = .error e0 := by
        simp only [scalarTypeInit, hb]
      constructor
      · intro h'
        rw [hs] at h'
        injection h' with he
        rw [he]
      · intro h'
        injection h' with he
        rw [hs, he]

/-- Witness for C8: the string descriptor at a concrete value. -/
theorem scalar_identity_witness :
    create_instance (scalarInst .stringK) (.vStr "abc") = .ok (.vStr "abc")
    ∧ to_model_data (scalarInst .stringK) (.vStr "abc") = .ok (.vStr "abc") :=
  ⟨(scalar_identity .stringK (.vStr "abc") false false false .vNone).1,
    (scalar_identity .stringK (.vStr "abc") false false false .vNone).2.1⟩

/-- C5: the round-trip law, variant by variant: the scalar identities
round-trip every value; the unique-identifier descriptor round-trips
exactly the canonical lowercase text (the native type normalizes case and
layout, so only the normal form is fixed); the enum descriptor round-trips
every member's underlying value; the foreign descriptor round-trips every
value for which the loader honors its contract of returning an instance
carrying that primary-key value; the list descriptor round-trips
element-wise when its element class converts and is the identity when it
does not; the hashed descriptor round-trips raw text. -/
theorem roundtrip_law :
    (∀ (k : ScalarKind) (x : PyVal),
      (create_instance (scalarInst k) x).bind (to_model_data (scalarInst k)) = .ok x)
    ∧ (∀ s : String, isUuidCanonicalLower s = true →
      (create_instance .uniqueIdD (.vStr s)).bind (to_model_data .uniqueIdD) =
        .ok (.vStr s))
    ∧ (∀ e : PyEnum, valuesDistinct e.members = true → ∀ n v, (n, v) ∈ e.members →
      (create_instance (.enumD e) v).bind (to_model_data (.enumD e)) = .ok v)
    ∧ (∀ (m : PyModel) (pk : String) (v inst : PyVal), m.load pk v = .ok inst →
      getattrPy inst pk = .ok v →
      (create_instance (.foreignD m pk) v).bind (to_model_data (.foreignD m pk)) = .ok v)
    ∧ (∀ (d : DescInstance) (xs : List PyVal),
      (∀ x ∈ xs, (create_instance d x).bind (to_model_data d) = .ok x) →
      (create_instance (.listD true (some d)) (.vList xs)).bind
        (to_model_data (.listD true (some d))) = .ok (.vList xs))
    ∧ (∀ (od : Option DescInstance) (x : PyVal),
      (create_instance (.listD false od) x).bind (to_model_data (.listD false od)) = .ok x)
    ∧ (∀ s : String,
      (create_instance .hashedD (.vStr s)).bind (to_model_data .hashedD) = .ok (.vStr s)) := by
  refine ⟨fun k x => ?_, fun s hs => ?_, fun e hd n v hm => ?_,
    fun m pk v inst h1 h2 => ?_, fun d xs h => ?_, fun od x => ?_,
    fun s => by simp [create_instance, to_model_data, Except.bind, pyStr]⟩
  · cases k <;> simp [scalarInst, create_instance, to_model_data, Except.bind]
  · simp only [create_instance, uuidParse_canonical hs, Except.bind, to_model_data, pyStr]
  · simp only [create_instance, find_member hm hd, Except.bind, to_model_data, getValueAttr]
  · simp only [create_instance, h1, Except.bind, to_model_data, h2]
  · obtain ⟨ys, h1, h2⟩ := list_roundtrip_aux d xs h
    simp only [create_instance, h1, Except.bind, to_model_data, h2]
  · cases od <;> simp [create_instance, to_model_data, Except.bind]

/-- Witness for C5: one concrete round trip per variant: an integer
through a scalar descriptor, canonical identifier text, the GREEN member
value, a loader-backed foreign value, a singleton list of identifier text
through a list of unique-identifier descriptors, and raw text through the
hashed descriptor. -/
theorem roundtrip_law_witness :
    (create_instance (scalarInst .intK) (.vInt 5)).bind (to_model_data (scalarInst .intK)) =
      .ok (.vInt 5)
    ∧ (create_instance .uniqueIdD (.vStr "123e4567-e89b-12d3-a456-426614174000")).bind
        (to_model_data .uniqueIdD) = .ok (.vStr "123e4567-e89b-12d3-a456-426614174000")
    ∧ (create_instance (.enumD color) (.vInt 2)).bind (to_model_data (.enumD color)) =
      .ok (.vInt 2)
    ∧ (create_instance (.foreignD order "id") (.vInt 7)).bind
        (to_model_data (.foreignD order "id")) = .ok (.vInt 7)
    ∧ (create_instance (.listD true (some .uniqueIdD))
          (.vList [.vStr "123e4567-e89b-12d3-a456-426614174000"])).bind
        (to_model_data (.listD true (some .uniqueIdD))) =
      .ok (.vList [.vStr "123e4567-e89b-12d3-a456-426614174000"])
    ∧ (create_instance .hashedD (.vStr "secret")).bind (to_model_data .hashedD) =
      .ok (.vStr "secret") := by
  refine ⟨roundtrip_law.1 .intK (.vInt 5),
    roundtrip_law.2.1 _ rfl,
    roundtrip_law.2.2.1 color rfl "GREEN" (.vInt 2) (by simp [color]),
    roundtrip_law.2.2.2.1 order "id" (.vInt 7) (.vModelInst "Order" [("id", .vInt 7)]) rfl rfl,
    roundtrip_law.2.2.2.2.1 .uniqueIdD [.vStr "123e4567-e89b-12d3-a456-426614174000"] ?_,
    roundtrip_law.2.2.2.2.2.2 "secret"⟩
  intro x hx
  rw [List.mem_singleton] at hx
  subst hx
  exact roundtrip_law.2.1 _ rfl

end Pymvc
